import Mathlib

/-!
# Verification of the receipt-bot conversation controller (src/bot.py)

Shallow embedding of the conversation state machine, the amount/date
parsing, the record assembly, and the AI-vision extractor wrapper of
`src/bot.py`.  Handlers are modelled as pure functions from the session
(`context.user_data`) and the inbound text to the successor session,
the returned conversation state, and the reply that was sent.  The two
external collaborators (the OpenAI vision call and the Google-Sheets
append) are modelled by explicit outcome parameters; everything the
repository's own code does with those outcomes is embedded faithfully.
-/

/-- The conversation states of `bot.py` line 27:
`CONFIRM_DETAILS, NAME, AMOUNT, DATE, CATEGORY, DESCRIPTION = range(6)`,
plus `ConversationHandler.END`. -/
inductive BotState where
  | CONFIRM_DETAILS
  | NAME
  | AMOUNT
  | DATE
  | CATEGORY
  | DESCRIPTION
  | END
deriving DecidableEq, Repr

/-- The extraction result handed back by `analyze_receipt_image` and read
through `dict.get` by the handlers.  An absent key and a JSON `null` both
read back as Python `None`, modelled as `Option.none`.  `items` is
modelled by the item names only (the handlers only copy the list around
and count/str-join it).  The `summary`, `tax_amount` and `payment_method`
keys are only used by the display formatter, which is not embedded. -/
structure ReceiptData where
  store_name : Option String := none
  total_amount : Option ℚ := none
  date : Option String := none
  currency : Option String := none
  items : List String := []
  error : Option String := none
deriving DecidableEq, Repr

/-- The per-chat `context.user_data` dictionary.  Each field models one
key; `none` / `false` / `[]` model the key being absent. -/
structure Session where
  name : Option String := none
  amount : Option ℚ := none
  date : Option String := none
  category : Option String := none
  description : Option String := none
  store : Option String := none
  items : List String := []
  has_image : Bool := false
  receipt_photo : Bool := false
  ai_analysis : Option ReceiptData := none
deriving DecidableEq, Repr

/-- `context.user_data.clear()` / a fresh `user_data`. -/
def emptySession : Session := {}

/-- A receipt-data dictionary with no keys at all. -/
def emptyReceipt : ReceiptData := {}

/-- `context.user_data.get('ai_analysis', {})` (bot.py lines 402, 421, 454). -/
def getAnalysis (s : Session) : ReceiptData := s.ai_analysis.getD emptyReceipt

/-! ## Python string primitives

The handlers use `str.strip`, `str.lower`, `str.replace(c, '')`,
`float(...)` and `datetime.strptime(..., '%Y-%m-%d')`.  They are
modelled here over the character list of the string.  `float` is
modelled on the sign/digits/decimal-point shapes the bot feeds it
(`'$'` and `','` already removed); exponents, `inf`/`nan` and
underscore separators are outside the modelled subset. -/

/-- Python `str.strip()`: drop whitespace from both ends. -/
def pyStrip (s : String) : String :=
  String.mk (((s.data.dropWhile Char.isWhitespace).reverse.dropWhile
    Char.isWhitespace).reverse)

/-- Python `str.lower()` (on the ASCII inputs used here). -/
def pyLower (s : String) : String := String.mk (s.data.map Char.toLower)

/-- Python `str.replace(c, '')` for a one-character pattern: remove every
occurrence of `c`. -/
def removeChar (c : Char) (s : String) : String :=
  String.mk (s.data.filter (fun x => x ≠ c))

/-- All characters are decimal digits. -/
def isDigits (l : List Char) : Bool := l.all Char.isDigit

/-- Numeric value of a digit list (most significant first). -/
def natOfDigits (l : List Char) : Nat :=
  l.foldl (fun a c => a * 10 + (c.toNat - 48)) 0

/-- Split a character list at every occurrence of `c` (like
Python `str.split(c)`: n separators give n+1 parts). -/
def splitChar (c : Char) : List Char → List (List Char)
  | [] => [[]]
  | x :: xs =>
      let r := splitChar c xs
      if x = c then [] :: r
      else
        match r with
        | [] => [[x]]
        | h :: t => (x :: h) :: t

/-- Python `float(s)` on the subset `[+|-] digits [. digits]` (at least
one digit overall); every other string raises `ValueError`, modelled as
`none`. -/
def pyFloat (s : String) : Option ℚ :=
  let l := s.data
  let signed : Bool × List Char :=
    match l with
    | '-' :: r => (true, r)
    | '+' :: r => (false, r)
    | r => (false, r)
  let body := signed.2
  let value : Option ℚ :=
    match splitChar '.' body with
    | [ip] =>
        if ip.length > 0 && isDigits ip then some (mkRat (natOfDigits ip) 1)
        else none
    | [ip, fp] =>
        if (ip.length + fp.length > 0) && isDigits ip && isDigits fp then
          some (mkRat (natOfDigits ip * 10 ^ fp.length + natOfDigits fp) (10 ^ fp.length))
        else none
    | _ => none
  value.map (fun v => if signed.1 then -v else v)

/-- Days in a month under the Gregorian leap rule (as `datetime` uses). -/
def daysInMonth (y m : Nat) : Nat :=
  if m = 2 then
    if (y % 4 = 0 && y % 100 ≠ 0) || y % 400 = 0 then 29 else 28
  else if m = 4 || m = 6 || m = 9 || m = 11 then 30
  else 31

/-- Python `datetime.strptime(s, '%Y-%m-%d')` succeeding: three dash-
separated digit fields (`%Y` exactly 4 digits, as CPython compiles it;
`%m`/`%d` 1–2 digits) naming a real calendar date (year at least 1). -/
def isValidYmd (s : String) : Bool :=
  match splitChar '-' s.data with
  | [y, m, d] =>
      isDigits y && isDigits m && isDigits d &&
      decide (y.length = 4) &&
      decide (1 ≤ m.length) && decide (m.length ≤ 2) &&
      decide (1 ≤ d.length) && decide (d.length ≤ 2) &&
      (let yn := natOfDigits y
       let mn := natOfDigits m
       let dn := natOfDigits d
       decide (1 ≤ yn) && decide (1 ≤ mn) && decide (mn ≤ 12) &&
       decide (1 ≤ dn) && decide (dn ≤ daysInMonth yn mn))
  | _ => false

/-- Python truthiness of an optional number (`None`, `0` and `0.0` are
falsy). -/
def truthyQ : Option ℚ → Bool
  | none => false
  | some v => decide (v ≠ 0)

/-- Python truthiness of an optional string (`None` and `''` are falsy). -/
def truthyS : Option String → Bool
  | none => false
  | some v => decide (v ≠ "")

/-! ## Replies

Each handler sends (or edits) exactly one user-visible message per
branch; the branch and its data payload are modelled by a constructor.
The literal message texts, emojis and keyboards are not embedded. -/

/-- The message a handler replies with, by source branch. -/
inductive Reply where
  /-- `handle_photo` success: the formatted analysis plus the
  Save/Cancel keyboard (bot.py lines 339–351). -/
  | analysisConfirm (receipt : ReceiptData)
  /-- `handle_photo` exception branch: "Error analyzing receipt photo"
  (lines 358–361). -/
  | photoError
  /-- `handle_confirmation` cancel branch: "Receipt analysis cancelled"
  (line 370). -/
  | cancelled
  /-- `handle_confirmation` save branch: "Please enter the person's
  name" (lines 375–379). -/
  | askName
  /-- `add_receipt`: "Please enter the person's name for this
  transaction" (lines 385–389). -/
  | askNameManual
  /-- `handle_name` empty-name re-prompt: "Please enter a valid name"
  (line 396). -/
  | enterValidName
  /-- `handle_name` AI branch: "AI detected total: <currency>
  <amount>" (lines 407–410). -/
  | aiDetectedTotal (currency : String) (amount : ℚ)
  /-- `handle_name` manual branch: "Enter the amount" (lines 412–414). -/
  | enterAmount
  /-- `handle_amount` invalid-input re-prompt (line 431). -/
  | invalidAmount
  /-- `handle_amount` AI branch: "AI detected date: <date>"
  (lines 440–443). -/
  | aiDetectedDate (date : String)
  /-- `handle_amount` manual branch: "Enter the date" (lines 445–447). -/
  | enterDate
  /-- `handle_date` invalid-format re-prompt (line 470). -/
  | invalidDate
  /-- `handle_date` success: the category keyboard (lines 486–500). -/
  | selectCategory
  /-- `handle_category`: the final-review summary plus description
  prompt (lines 512–528). -/
  | finalReview
  /-- `handle_description` success message (lines 561–582). -/
  | savedOk
  /-- `handle_description` write-failure message (line 587). -/
  | saveFailed
  /-- `cancel`: "Operation cancelled" (line 683). -/
  | opCancelled
deriving DecidableEq, Repr

/-- What one text/callback handler produces: the successor
`user_data`, the state it returns to the conversation framework, and
the reply it sent. -/
structure StepResult where
  session : Session
  state : BotState
  reply : Reply
deriving DecidableEq, Repr

/-! ## The transaction record and the sheet row -/

/-- The `transaction_data` dictionary assembled in `handle_description`
(bot.py lines 544–555).  `name`, `amount`, `date`, `category` are read
with a bare `dict.get` and may be `None`. -/
structure TransactionData where
  user_id : Nat
  name : Option String
  amount : Option ℚ
  date : Option String
  category : Option String
  description : String
  store : String
  items : List String
  ai_analysis : String
  has_image : Bool
deriving DecidableEq, Repr

/-- The row `GoogleSheetManager.add_transaction` appends (bot.py lines
237–249), one field per sheet column. -/
structure Row where
  timestamp : String
  user_id : Nat
  name : Option String
  amount : Option ℚ
  date : Option String
  category : Option String
  description : String
  store : String
  items_summary : String
  ai_analysis : String
  image_available : String
deriving DecidableEq, Repr

namespace GoogleSheetManager

/-- The items-summary cell computed in `add_transaction` (bot.py lines
228–235): names of the first three items, the empty ones dropped,
comma-joined, with an "and n more" suffix when more than three. -/
def itemsSummary (items : List String) : String :=
  if items.isEmpty then ""
  else
    let joined := String.intercalate ", " ((items.take 3).filter (fun n => n ≠ ""))
    if items.length > 3 then
      joined ++ " and " ++ toString (items.length - 3) ++ " more"
    else joined

/-- `GoogleSheetManager.add_transaction` (bot.py lines 225–252) as the
pure row computation; the `append_row` network call is modelled by the
caller's write-outcome parameter. -/
def add_transaction (data : TransactionData) (now : String) : Row :=
  { timestamp := now
    user_id := data.user_id
    name := data.name
    amount := data.amount
    date := data.date
    category := data.category
    description := data.description
    store := data.store
    items_summary := itemsSummary data.items
    ai_analysis := data.ai_analysis
    image_available := if data.has_image then "Yes" else "No" }

end GoogleSheetManager

/-! ## The conversation handlers -/

namespace ReceiptBot

/-- `ReceiptBot.add_receipt` (bot.py lines 382–390): clear any previous
data, prompt for the name, enter `NAME`. -/
def add_receipt (_s : Session) : StepResult :=
  ⟨emptySession, .NAME, .askNameManual⟩

/-- `ReceiptBot.handle_photo` (bot.py lines 318–362).  `downloadOk`
models whether the photo download (the only statement before the
`user_data` writes) raised; `receipt` is the result of
`analyze_receipt_image`, which never raises.  Note: the session is NOT
cleared — the receipt data is written on top of whatever is there. -/
def handle_photo (s : Session) (downloadOk : Bool) (receipt : ReceiptData) :
    StepResult :=
  if downloadOk then
    let s' := { s with
      receipt_photo := true
      has_image := true
      ai_analysis := some receipt }
    ⟨s', .CONFIRM_DETAILS, .analysisConfirm receipt⟩
  else
    ⟨s, .END, .photoError⟩

/-- `ReceiptBot.handle_confirmation` (bot.py lines 364–380): `cancel`
clears and ends; anything else asks for the name and enters `NAME`. -/
def handle_confirmation (s : Session) (data : String) : StepResult :=
  if data == "cancel" then ⟨emptySession, .END, .cancelled⟩
  else ⟨s, .NAME, .askName⟩

/-- `ReceiptBot.handle_name` (bot.py lines 392–416): reject an empty
(stripped) name; otherwise store it and prompt for the amount, showing
the AI-detected total when the analysis has a truthy `total_amount`
and no `error` key. -/
def handle_name (s : Session) (text : String) : StepResult :=
  let name := pyStrip text
  if name == "" then ⟨s, .NAME, .enterValidName⟩
  else
    let s' := { s with name := some name }
    let rd := getAnalysis s
    if truthyQ rd.total_amount && rd.error.isNone then
      ⟨s', .AMOUNT, .aiDetectedTotal (rd.currency.getD "USD") (rd.total_amount.getD 0)⟩
    else
      ⟨s', .AMOUNT, .enterAmount⟩

/-- The condition of bot.py line 425: the user sent (effectively) empty
text, a detected amount exists and is truthy, and the analysis carries
no `error` key — so the detected amount is accepted as the default. -/
def acceptsDetectedAmount (s : Session) (text : String) : Bool :=
  (pyStrip text == "") && truthyQ (getAnalysis s).total_amount &&
    (getAnalysis s).error.isNone

/-- The argument the bot hands to `float` at line 429:
`user_input.replace('$', '').replace(',', '').strip()`. -/
def cleanedAmount (text : String) : String :=
  pyStrip (removeChar ',' (removeChar '$' (pyStrip text)))

/-- `ReceiptBot.handle_amount` (bot.py lines 418–449): empty input with
a truthy detected amount and no `error` accepts the detected amount;
otherwise `float` the input with `'$'` and `','` removed, re-prompting
(state unchanged) on `ValueError`.  On success store the amount — no
positivity check — and prompt for the date. -/
def handle_amount (s : Session) (text : String) : StepResult :=
  let rd := getAnalysis s
  let parsed : Option ℚ :=
    if acceptsDetectedAmount s text then
      rd.total_amount
    else
      pyFloat (cleanedAmount text)
  match parsed with
  | none => ⟨s, .AMOUNT, .invalidAmount⟩
  | some amount =>
      let s' := { s with amount := some amount }
      if truthyS rd.date && rd.error.isNone then
        ⟨s', .DATE, .aiDetectedDate (rd.date.getD "")⟩
      else
        ⟨s', .DATE, .enterDate⟩

/-- `ReceiptBot.handle_date` (bot.py lines 451–501): empty input with a
truthy detected date and no `error` takes the detected date; `today`
resolves to the current date; otherwise the input stands.  A non-empty
candidate must `strptime` as `%Y-%m-%d` or the handler re-prompts (an
EMPTY candidate skips validation — "Allow empty for now").  On success
the date is stored, the store name and items are copied from the
analysis when truthy and `error`-free (no "Unknown" default), and the
category keyboard is shown. -/
def handle_date (s : Session) (text : String) (today : String) : StepResult :=
  let user_input := pyStrip text
  let rd := getAnalysis s
  let date_text :=
    if user_input == "" && truthyS rd.date && rd.error.isNone then rd.date.getD ""
    else if pyLower user_input == "today" then today
    else user_input
  if date_text ≠ "" && !(isValidYmd date_text) then
    ⟨s, .DATE, .invalidDate⟩
  else
    let store := rd.store_name.getD ""
    let s' := { s with
      date := some date_text,
      store := if store ≠ "" && rd.error.isNone then some store else s.store,
      items := if !rd.items.isEmpty && rd.error.isNone then rd.items else s.items }
    ⟨s', .CATEGORY, .selectCategory⟩

/-- `ReceiptBot.handle_category` (bot.py lines 503–529): store the
tapped callback data as the category and prompt for the description. -/
def handle_category (s : Session) (data : String) : StepResult :=
  ⟨{ s with category := some data }, .DESCRIPTION, .finalReview⟩

/-- `ReceiptBot.cancel` (bot.py lines 680–684): clear and end. -/
def cancel (_s : Session) : StepResult :=
  ⟨emptySession, .END, .opCancelled⟩

/-- The `transaction_data` dictionary built in `handle_description`
(bot.py lines 544–555) from the session and the effective user id.
`ai_analysis` is `'Yes'` iff the `ai_analysis` KEY is present in
`user_data` — not whether the analysis succeeded. -/
def buildTransaction (s : Session) (uid : Nat) : TransactionData :=
  { user_id := uid
    name := s.name
    amount := s.amount
    date := s.date
    category := s.category
    description := s.description.getD ""
    store := s.store.getD ""
    items := s.items
    ai_analysis := if s.ai_analysis.isSome then "Yes" else "No"
    has_image := s.has_image }

/-- What `handle_description` produces: the final session and state,
the reply, and the row as appended (`none` when the append raised). -/
structure EndResult where
  session : Session
  state : BotState
  reply : Reply
  written : Option Row
deriving DecidableEq, Repr

/-- `ReceiptBot.handle_description` (bot.py lines 531–591): store the
description (`skip`, case-insensitively, means empty), build the
transaction, attempt the sheet append — no field validation of any
kind — report success or failure, and clear the session
unconditionally before returning `END`.  `writeOk` models whether the
external `append_row` call raised. -/
def handle_description (s : Session) (text : String) (uid : Nat)
    (writeOk : Bool) (now : String) : EndResult :=
  let description := if pyLower text ≠ "skip" then text else ""
  let s' := { s with description := some description }
  let row := GoogleSheetManager.add_transaction (buildTransaction s' uid) now
  { session := emptySession
    state := .END
    reply := if writeOk then .savedOk else .saveFailed
    written := if writeOk then some row else none }

end ReceiptBot

/-! ## The AI-vision extractor -/

namespace AIVisionProcessor

/-- What the regex-extract-then-parse steps on the model's reply text
yield (bot.py lines 106–118): no brace-delimited substring, a substring
that `json.loads` rejects (with the exception text), or a parsed
receipt dictionary. -/
inductive JsonExtract where
  | noMatch
  | matchBad (msg : String)
  | matchGood (data : ReceiptData)
deriving DecidableEq, Repr

/-- The outcome of the outbound OpenAI call: it raised, or returned a
reply whose content behaves as the given `JsonExtract`. -/
inductive ApiOutcome where
  | raise (msg : String)
  | ok (extract : JsonExtract)
deriving DecidableEq, Repr

/-- The error-only dictionary the extractor returns on failure. -/
def withError (msg : String) : ReceiptData := { emptyReceipt with error := some msg }

/-- The body of the `try` block of `analyze_receipt_image` (bot.py
lines 52–119): the API call may raise (`Except.error`); the no-match
and parse-failure branches RETURN error dictionaries rather than
raising. -/
def analyzeBody (outcome : ApiOutcome) : Except String ReceiptData :=
  match outcome with
  | .raise msg => .error msg
  | .ok .noMatch => .ok (withError "No JSON in response")
  | .ok (.matchBad msg) => .ok (withError ("JSON parse error: " ++ msg))
  | .ok (.matchGood data) => .ok data

/-- `AIVisionProcessor.analyze_receipt_image` (bot.py lines 46–123) as
seen by its caller: `Except.error` would be an exception escaping to
the caller.  A missing client returns an error dictionary before the
`try`; the `except Exception` clause converts any raise from the body
into an error dictionary. -/
def analyze_receipt_image (hasClient : Bool) (outcome : ApiOutcome) :
    Except String ReceiptData :=
  if !hasClient then .ok (withError "OpenAI not configured")
  else
    match analyzeBody outcome with
    | .ok data => .ok data
    | .error msg => .ok (withError msg)

/-- The error reported for each input, straight off the spec's failure
taxonomy: the configuration message, the raised exception's text, the
no-JSON message, the parse-error message, or — for a successfully
parsed reply — whatever `error` key the parsed JSON itself carried. -/
def expectedError : Bool → ApiOutcome → Option String
  | false, _ => some "OpenAI not configured"
  | true, .raise msg => some msg
  | true, .ok .noMatch => some "No JSON in response"
  | true, .ok (.matchBad msg) => some ("JSON parse error: " ++ msg)
  | true, .ok (.matchGood data) => data.error

end AIVisionProcessor

example : pyFloat "15" = some 15 := by decide
example : pyFloat "-5" = some (-5) := by decide
example : pyFloat "" = none := by decide
example : pyFloat "abc" = none := by decide
example : pyFloat "1234.56" = some (mkRat 123456 100) := by decide
example : isValidYmd "2025-03-01" = true := by decide
example : isValidYmd "2025-13-40" = false := by decide
example : pyStrip "  hi " = "hi" := by decide
example : removeChar ',' (removeChar '$' "$1,234.56") = "1234.56" := by decide
example : pyLower "Today" = "today" := by decide


/-! ## Concrete fixtures used by the closed theorems -/

/-- A successful extraction: amount 42.50, date `2025-03-01`, store
`Acme`, no `error` key (the §8 scenario of the spec). -/
def rdAcme : ReceiptData :=
  { store_name := some "Acme", total_amount := some (mkRat 85 2),
    date := some "2025-03-01", currency := none, items := [], error := none }

/-- A failed extraction: the error-only dictionary the extractor
returns on any failure. -/
def rdFail : ReceiptData := AIVisionProcessor.withError "boom"

/-! ## Claim C7 — the extractor never raises -/

/-- C7: `analyze_receipt_image` never lets an exception escape to its
caller: for every configuration (client present or not) and every
outcome of the outbound call (a raise, a reply with no JSON object, a
reply whose JSON does not parse, or a parsed reply), it returns a
result dictionary, and on each failure path the `error` field holds
exactly the failure's reason. -/
theorem C7_extractor_never_raises (hasClient : Bool)
    (outcome : AIVisionProcessor.ApiOutcome) :
    ∃ r, AIVisionProcessor.analyze_receipt_image hasClient outcome = .ok r ∧
      r.error = AIVisionProcessor.expectedError hasClient outcome := by
  cases hasClient <;> rcases outcome with msg | e <;> first
    | exact ⟨_, rfl, rfl⟩
    | (cases e <;> exact ⟨_, rfl, rfl⟩)

/-! ## Claim C8 — the write step clears the session unconditionally -/

/-- C8: `handle_description` empties the session and ends the
conversation whatever the description text and whether the sheet
append succeeded (`writeOk = true`) or raised (`writeOk = false`): a
failed write leaves no partial session behind. -/
theorem C8_clears_unconditionally (s : Session) (text : String) (uid : Nat)
    (writeOk : Bool) (now : String) :
    (ReceiptBot.handle_description s text uid writeOk now).session = emptySession ∧
    (ReceiptBot.handle_description s text uid writeOk now).state = BotState.END := by
  exact ⟨rfl, rfl⟩

/-! ## Claim C3 — error extractions and the confirmation state -/

/-- C3 counterexample: a photo flow whose extraction returned an error
dictionary does NOT move directly to the name state — `handle_photo`
returns `CONFIRM_DETAILS` (the save-confirmation state) for it, with
the error result stored in the session. -/
theorem C3_counterexample :
    (ReceiptBot.handle_photo emptySession true rdFail).state
        = BotState.CONFIRM_DETAILS ∧
    BotState.CONFIRM_DETAILS ≠ BotState.NAME := by decide

/-- C3 amended: for every photo whose download succeeded,
`handle_photo` moves to `CONFIRM_DETAILS` and stores the extraction
result, whether or not that result carries an `error` — the code has
no extraction-failure branch to the manual name state; `NAME` is only
reached after the user answers the confirmation. -/
theorem C3_always_confirm (s : Session) (rd : ReceiptData) :
    (ReceiptBot.handle_photo s true rd).state = BotState.CONFIRM_DETAILS ∧
    (ReceiptBot.handle_photo s true rd).session.ai_analysis = some rd ∧
    (ReceiptBot.handle_photo s true rd).state ≠ BotState.NAME := by
  refine ⟨rfl, rfl, ?_⟩
  intro h
  cases h

/-! ## Claim C9 — re-entrancy of the two flow entry points -/

/-- C9 counterexample: starting a photo flow while a session is
mid-flight does NOT discard the previous data — the earlier flow's
`name` (and `amount`) survive `handle_photo`. -/
theorem C9_counterexample :
    (ReceiptBot.handle_photo
        { emptySession with name := some "Old", amount := some 5 }
        true rdAcme).session.name = some "Old" ∧
    some "Old" ≠ (none : Option String) := by decide

/-- C9 amended: `/add` (`add_receipt`) clears the previous session
entirely, but the photo entry point only writes the photo keys on top
of the existing session: every previously collected field (name,
amount, date, category, description, store) survives it. -/
theorem C9_only_add_clears (s : Session) (rd : ReceiptData) :
    (ReceiptBot.add_receipt s).session = emptySession ∧
    (ReceiptBot.handle_photo s true rd).session.name = s.name ∧
    (ReceiptBot.handle_photo s true rd).session.amount = s.amount ∧
    (ReceiptBot.handle_photo s true rd).session.date = s.date ∧
    (ReceiptBot.handle_photo s true rd).session.category = s.category ∧
    (ReceiptBot.handle_photo s true rd).session.description = s.description ∧
    (ReceiptBot.handle_photo s true rd).session.store = s.store := by
  exact ⟨rfl, rfl, rfl, rfl, rfl, rfl, rfl⟩

/-! ## Claim C1 — mandatory-field validation before the write -/

/-- C1 counterexample: a completed manual flow (`/add`, name `Jo`,
amount `15`, empty input at the date step, category `Food`,
description `skip`) reaches the write step with an EMPTY date, and the
record is written anyway — no `MissingRequiredField` failure exists in
the code, the write is attempted and succeeds. -/
theorem C1_counterexample :
    (ReceiptBot.handle_description (ReceiptBot.handle_category
        (ReceiptBot.handle_date (ReceiptBot.handle_amount (ReceiptBot.handle_name
          (ReceiptBot.add_receipt emptySession).session "Jo").session "15").session
          "" "2025-03-05").session "Food").session "skip" 7 true "T").written
      = some { timestamp := "T", user_id := 7, name := some "Jo",
               amount := some 15, date := some "", category := some "Food",
               description := "", store := "", items_summary := "",
               ai_analysis := "No", image_available := "No" } := by decide

/-- C1 amended: the record-assembly step performs no mandatory-field
check at all: for EVERY session — including one with an empty or
missing `name`, `amount`, `date` or `category` — `handle_description`
attempts the append, and the row (when the append succeeds) carries
the session's fields exactly as they are.  It still clears the session
and ends the conversation. -/
theorem C1_no_field_validation (s : Session) (text : String) (uid : Nat)
    (now : String) :
    ∃ row, (ReceiptBot.handle_description s text uid true now).written = some row ∧
      row.name = s.name ∧ row.amount = s.amount ∧ row.date = s.date ∧
      row.category = s.category := by
  exact ⟨_, rfl, rfl, rfl, rfl, rfl⟩

/-! ## Claim C4 — the `aiAnalyzed` marker -/

/-- C4 counterexample: a photo flow whose extraction FAILED (error
dictionary), completed manually, still writes `AI Analysis = 'Yes'` —
the flag records that an analysis result is present in the session,
not that it succeeded. -/
theorem C4_counterexample :
    ((ReceiptBot.handle_description (ReceiptBot.handle_category
        (ReceiptBot.handle_date (ReceiptBot.handle_amount (ReceiptBot.handle_name
          (ReceiptBot.handle_confirmation
            (ReceiptBot.handle_photo emptySession true rdFail).session
            "save").session "Jo").session "15").session
          "2025-03-01" "2025-03-05").session "Food").session
        "skip" 7 true "T").written.map Row.ai_analysis) = some "Yes" ∧
    rdFail.error = some "boom" := by decide

/-- C4 amended: the written `ai_analysis` cell is `'Yes'` exactly when
the session holds an extraction result: it is key presence, not
success: any session that went through `handle_photo` (error or not)
writes `'Yes'`, and a session with no analysis writes `'No'`. -/
theorem C4_flag_is_key_presence (s : Session) (rd : ReceiptData)
    (text : String) (uid : Nat) (now : String) :
    (((ReceiptBot.handle_description s text uid true now).written.map
        Row.ai_analysis) = some "Yes" ↔ s.ai_analysis.isSome = true) ∧
    ((ReceiptBot.handle_description (ReceiptBot.handle_photo s true rd).session
        text uid true now).written.map Row.ai_analysis) = some "Yes" := by
  constructor
  · cases h : s.ai_analysis <;>
      simp [ReceiptBot.handle_description, ReceiptBot.buildTransaction,
        GoogleSheetManager.add_transaction, h]
  · simp [ReceiptBot.handle_description, ReceiptBot.buildTransaction,
      GoogleSheetManager.add_transaction, ReceiptBot.handle_photo]

/-! ## Claim C5 — the store default after the date step -/

/-- C5 counterexample: completing the manual path (no extraction)
leaves the session's store unset after the date step, and the written
record carries the EMPTY string in the store column, not `"Unknown"`
— no `"Unknown"` default exists in the code. -/
theorem C5_counterexample :
    (ReceiptBot.handle_date (ReceiptBot.handle_amount (ReceiptBot.handle_name
        (ReceiptBot.add_receipt emptySession).session "Jo").session "15").session
        "2025-03-01" "2025-03-05").session.store = none ∧
    ((ReceiptBot.handle_description (ReceiptBot.handle_category
        (ReceiptBot.handle_date (ReceiptBot.handle_amount (ReceiptBot.handle_name
          (ReceiptBot.add_receipt emptySession).session "Jo").session "15").session
          "2025-03-01" "2025-03-05").session "Food").session
        "skip" 7 true "T").written.map Row.store) = some "" ∧
    "" ≠ "Unknown" := by decide

/-- C5 amended: when no extraction is present, `handle_date` leaves the
session's store exactly as it was (it is never defaulted to
`"Unknown"`), and a session whose store was never set writes the empty
string in the store column. -/
theorem C5_store_not_defaulted (s : Session) (input today text : String)
    (uid : Nat) (now : String) (hai : s.ai_analysis = none)
    (hst : s.store = none) :
    (ReceiptBot.handle_date s input today).session.store = none ∧
    ((ReceiptBot.handle_description s text uid true now).written.map
        Row.store) = some "" := by
  constructor
  · have hrd : getAnalysis s = emptyReceipt := by
      simp [getAnalysis, hai]
    simp [ReceiptBot.handle_date, hrd, emptyReceipt, truthyS, hst,
      apply_ite StepResult.session, apply_ite Session.store]
  · simp [ReceiptBot.handle_description, ReceiptBot.buildTransaction,
      GoogleSheetManager.add_transaction, hst]

/-- C5 witness: the amended statement instantiated on the session the
manual flow actually reaches at the date step. -/
theorem C5_store_witness :
    (ReceiptBot.handle_date
        { emptySession with name := some "Jo", amount := some 15 }
        "2025-03-01" "2025-03-05").session.store = none ∧
    ((ReceiptBot.handle_description
        { emptySession with name := some "Jo", amount := some 15 }
        "skip" 7 true "T").written.map Row.store) = some "" :=
  C5_store_not_defaulted
    { emptySession with name := some "Jo", amount := some 15 }
    "2025-03-01" "2025-03-05" "skip" 7 "T" rfl rfl

/-! ## Claim C6 — amount validation -/

/-- C6 counterexample: in the amount state of a manual flow, the
NEGATIVE input `-5` is accepted — the handler stores `-5` and moves on
to the date state instead of re-prompting, so non-positive input is
not rejected. -/
theorem C6_counterexample :
    (ReceiptBot.handle_amount { emptySession with name := some "Jo" }
        "-5").session.amount = some (-5) ∧
    (ReceiptBot.handle_amount { emptySession with name := some "Jo" }
        "-5").state = BotState.DATE ∧
    (-5 : ℚ) < 0 := by decide

/-- C6 amended: whenever the detected-amount default does not apply and
`float` fails on the input with every `'$'` and `','` removed, the
handler re-prompts with the session and state unchanged (the parse is
a total function, so malformed input never crashes); `"$1,234.56"`
does clean and parse to `1234.56`.  Numeric input is accepted with NO
positivity check. -/
theorem C6_amount_validation :
    (∀ (s : Session) (text : String),
      ReceiptBot.acceptsDetectedAmount s text = false →
      pyFloat (ReceiptBot.cleanedAmount text) = none →
      ReceiptBot.handle_amount s text
        = ⟨s, BotState.AMOUNT, Reply.invalidAmount⟩) ∧
    pyFloat (ReceiptBot.cleanedAmount "$1,234.56") = some (mkRat 123456 100) := by
  constructor
  · intro s text hacc hparse
    simp [ReceiptBot.handle_amount, hacc, hparse]
  · decide

/-- C6 witness: the amended statement applied to the non-numeric input
`abc` in a plain manual session. -/
theorem C6_witness :
    ReceiptBot.handle_amount emptySession "abc"
      = ⟨emptySession, BotState.AMOUNT, Reply.invalidAmount⟩ :=
  C6_amount_validation.1 emptySession "abc" (by decide) (by decide)

/-! ## Claim C10 — a zero or absent extracted total -/

/-- C10: when the session's extraction succeeded (no `error` key) but
`total_amount` is absent, `null` or `0` (Python-falsy), the name step
shows the PLAIN amount prompt — not the AI-detected default — and
empty input at the amount step is a validation failure (re-prompt,
state and session unchanged) rather than an accepted `0`. -/
theorem C10_zero_total_is_manual (s : Session) (rd : ReceiptData)
    (text : String) (hai : s.ai_analysis = some rd) (he : rd.error = none)
    (hz : truthyQ rd.total_amount = false) (hn : pyStrip text ≠ "") :
    (ReceiptBot.handle_name s text).reply = Reply.enterAmount ∧
    (ReceiptBot.handle_name s text).state = BotState.AMOUNT ∧
    ReceiptBot.handle_amount s ""
      = ⟨s, BotState.AMOUNT, Reply.invalidAmount⟩ := by
  have hrd : getAnalysis s = rd := by simp [getAnalysis, hai]
  refine ⟨?_, ?_, ?_⟩
  · simp [ReceiptBot.handle_name, hrd, hz, hn]
  · simp [ReceiptBot.handle_name, hrd, hz, hn]
  · have hacc : ReceiptBot.acceptsDetectedAmount s "" = false := by
      simp [ReceiptBot.acceptsDetectedAmount, hrd, hz]
    have hparse : pyFloat (ReceiptBot.cleanedAmount "") = none := by decide
    simp [ReceiptBot.handle_amount, hacc, hparse]

/-- C10 witness: the theorem applied to a succeeded extraction whose
`total_amount` is the literal `0`. -/
theorem C10_witness :
    (ReceiptBot.handle_name
        { emptySession with ai_analysis := some { emptyReceipt with total_amount := some 0 } }
        "Jo").reply = Reply.enterAmount ∧
    (ReceiptBot.handle_name
        { emptySession with ai_analysis := some { emptyReceipt with total_amount := some 0 } }
        "Jo").state = BotState.AMOUNT ∧
    ReceiptBot.handle_amount
        { emptySession with ai_analysis := some { emptyReceipt with total_amount := some 0 } }
        ""
      = ⟨{ emptySession with ai_analysis := some { emptyReceipt with total_amount := some 0 } },
         BotState.AMOUNT, Reply.invalidAmount⟩ :=
  C10_zero_total_is_manual
    { emptySession with ai_analysis := some { emptyReceipt with total_amount := some 0 } }
    { emptyReceipt with total_amount := some 0 }
    "Jo" rfl rfl (by decide) (by decide)

/-! ## Claim C2 — the save-using-extracted-data path -/

/-- C2 counterexample: after a photo whose extraction succeeded with
amount `42.50`, date `2025-03-01`, store `Acme`, tapping save and then
supplying the name moves the machine to the AMOUNT state — showing the
AI-detected-total prompt — not directly to CATEGORY: the amount and
date states are NOT bypassed. -/
theorem C2_counterexample :
    (ReceiptBot.handle_name (ReceiptBot.handle_confirmation
        (ReceiptBot.handle_photo emptySession true rdAcme).session
        "save").session "Jo").state = BotState.AMOUNT ∧
    BotState.AMOUNT ≠ BotState.CATEGORY ∧
    (ReceiptBot.handle_name (ReceiptBot.handle_confirmation
        (ReceiptBot.handle_photo emptySession true rdAcme).session
        "save").session "Jo").reply
      = Reply.aiDetectedTotal "USD" (mkRat 85 2) := by decide

/-- C2 amended: with a truthy extracted amount, date and store and no
`error`, the save path still walks through the AMOUNT and DATE states,
but each shows the AI-detected value and accepts it on empty input: the
name step moves to AMOUNT with the detected-total prompt, empty input
there stores the extracted amount and moves to DATE with the
detected-date prompt, and empty input there stores the extracted date
and store and moves to CATEGORY — so the final record carries the
extracted amount, date and store. -/
theorem C2_ai_defaults_flow (s : Session) (rd : ReceiptData)
    (nameIn today : String)
    (hq : truthyQ rd.total_amount = true) (hd : truthyS rd.date = true)
    (hs : truthyS rd.store_name = true) (he : rd.error = none)
    (hv : isValidYmd (rd.date.getD "") = true) (hn : pyStrip nameIn ≠ "") :
    (ReceiptBot.handle_name (ReceiptBot.handle_confirmation
        (ReceiptBot.handle_photo s true rd).session "save").session
        nameIn).state = BotState.AMOUNT ∧
    (ReceiptBot.handle_name (ReceiptBot.handle_confirmation
        (ReceiptBot.handle_photo s true rd).session "save").session
        nameIn).reply
      = Reply.aiDetectedTotal (rd.currency.getD "USD") (rd.total_amount.getD 0) ∧
    (ReceiptBot.handle_amount (ReceiptBot.handle_name
        (ReceiptBot.handle_confirmation (ReceiptBot.handle_photo s true rd).session
        "save").session nameIn).session "").state = BotState.DATE ∧
    (ReceiptBot.handle_amount (ReceiptBot.handle_name
        (ReceiptBot.handle_confirmation (ReceiptBot.handle_photo s true rd).session
        "save").session nameIn).session "").session.amount = rd.total_amount ∧
    (ReceiptBot.handle_date (ReceiptBot.handle_amount (ReceiptBot.handle_name
        (ReceiptBot.handle_confirmation (ReceiptBot.handle_photo s true rd).session
        "save").session nameIn).session "").session "" today).state
      = BotState.CATEGORY ∧
    (ReceiptBot.handle_date (ReceiptBot.handle_amount (ReceiptBot.handle_name
        (ReceiptBot.handle_confirmation (ReceiptBot.handle_photo s true rd).session
        "save").session nameIn).session "").session "" today).session.date
      = rd.date ∧
    (ReceiptBot.handle_date (ReceiptBot.handle_amount (ReceiptBot.handle_name
        (ReceiptBot.handle_confirmation (ReceiptBot.handle_photo s true rd).session
        "save").session nameIn).session "").session "" today).session.store
      = rd.store_name := by
  obtain ⟨q, hq1, hq2⟩ : ∃ q, rd.total_amount = some q ∧ q ≠ 0 := by
    cases h : rd.total_amount with
    | none => rw [h] at hq; exact absurd hq (by simp [truthyQ])
    | some q =>
        rw [h] at hq
        exact ⟨q, rfl, by simpa [truthyQ] using hq⟩
  obtain ⟨dt, hd1, hd2⟩ : ∃ dt, rd.date = some dt ∧ dt ≠ "" := by
    cases h : rd.date with
    | none => rw [h] at hd; exact absurd hd (by simp [truthyS])
    | some dt =>
        rw [h] at hd
        exact ⟨dt, rfl, by simpa [truthyS] using hd⟩
  obtain ⟨st, hs1, hs2⟩ : ∃ st, rd.store_name = some st ∧ st ≠ "" := by
    cases h : rd.store_name with
    | none => rw [h] at hs; exact absurd hs (by simp [truthyS])
    | some st =>
        rw [h] at hs
        exact ⟨st, rfl, by simpa [truthyS] using hs⟩
  have hps : pyStrip "" = "" := rfl
  have hsave : (("save" : String) == "cancel") = false := by decide
  rw [hd1] at hv
  simp only [Option.getD_some] at hv
  simp [ReceiptBot.handle_photo, ReceiptBot.handle_confirmation,
    ReceiptBot.handle_name, ReceiptBot.handle_amount, ReceiptBot.handle_date,
    ReceiptBot.acceptsDetectedAmount, ReceiptBot.cleanedAmount,
    getAnalysis, truthyQ, truthyS, hq1, hq2, hd1, hd2, hs1, hs2, he, hn,
    hsave, hps, hv]

/-- C2 witness: the amended flow instantiated on the §8 extraction
(amount `42.50`, date `2025-03-01`, store `Acme`) with name `Jo`. -/
theorem C2_witness :
    (ReceiptBot.handle_name (ReceiptBot.handle_confirmation
        (ReceiptBot.handle_photo emptySession true rdAcme).session "save").session
        "Jo").state = BotState.AMOUNT ∧
    (ReceiptBot.handle_name (ReceiptBot.handle_confirmation
        (ReceiptBot.handle_photo emptySession true rdAcme).session "save").session
        "Jo").reply
      = Reply.aiDetectedTotal (rdAcme.currency.getD "USD") (rdAcme.total_amount.getD 0) ∧
    (ReceiptBot.handle_amount (ReceiptBot.handle_name
        (ReceiptBot.handle_confirmation (ReceiptBot.handle_photo emptySession true rdAcme).session
        "save").session "Jo").session "").state = BotState.DATE ∧
    (ReceiptBot.handle_amount (ReceiptBot.handle_name
        (ReceiptBot.handle_confirmation (ReceiptBot.handle_photo emptySession true rdAcme).session
        "save").session "Jo").session "").session.amount = rdAcme.total_amount ∧
    (ReceiptBot.handle_date (ReceiptBot.handle_amount (ReceiptBot.handle_name
        (ReceiptBot.handle_confirmation (ReceiptBot.handle_photo emptySession true rdAcme).session
        "save").session "Jo").session "").session "" "2025-03-05").state
      = BotState.CATEGORY ∧
    (ReceiptBot.handle_date (ReceiptBot.handle_amount (ReceiptBot.handle_name
        (ReceiptBot.handle_confirmation (ReceiptBot.handle_photo emptySession true rdAcme).session
        "save").session "Jo").session "").session "" "2025-03-05").session.date
      = rdAcme.date ∧
    (ReceiptBot.handle_date (ReceiptBot.handle_amount (ReceiptBot.handle_name
        (ReceiptBot.handle_confirmation (ReceiptBot.handle_photo emptySession true rdAcme).session
        "save").session "Jo").session "").session "" "2025-03-05").session.store
      = rdAcme.store_name :=
  C2_ai_defaults_flow emptySession rdAcme "Jo" "2025-03-05"
    (by decide) (by decide) (by decide) rfl (by decide) (by decide)
